import Mathlib

/-!
Shallow embedding of the tour-generation core of the tourist-guide
application (tour store and sights store) and proofs about its claims.

Conventions:
* JavaScript numbers are modelled as `ℚ` (the program performs only ring
  operations, comparisons and `Math.ceil` on them; the trigonometric
  geodistance routine `calculateDistance` is treated as a parameter
  `DistFn`, since every property proved here holds for an arbitrary
  distance function).
* Optional (possibly `undefined`) fields are modelled as `Option`.
* `Sight.id` is `number | string` in the source; it is modelled as
  `String` (the source itself compares ids only for equality and converts
  them with `toString`).
* Fallible code returns `Except`; the single external network call of the
  delegated optimizer is modelled by an explicit `FetchResult` argument.
-/

namespace RorkTour

/-- A latitude/longitude pair in degrees. -/
structure Coord where
  latitude : ℚ
  longitude : ℚ
  deriving DecidableEq, Repr

/-- The distance routine `calculateDistance(lat1, lon1, lat2, lon2)`.
The source implements the Haversine formula with transcendental
functions; the development is parametric in it because every claim
settled here holds for an arbitrary distance function. -/
abbrev DistFn := ℚ → ℚ → ℚ → ℚ → ℚ

/-- `Sight` from `types/sight.ts`, restricted to the fields the tour core
reads (the remaining fields are opaque strings carried along unchanged by
the object spreads and are irrelevant to every claim). -/
structure Sight where
  id : String
  name : String
  category : String
  latitude : ℚ
  longitude : ℚ
  distance : Option ℚ
  rating : Option ℚ
  tier : ℕ
  deriving DecidableEq, Repr

/-- JS truthiness of an optional number: `undefined` and `0` are falsy. -/
def numTruthy : Option ℚ → Bool
  | none => false
  | some r => r != 0

/-- JS truthiness of an optional non-negative integer. -/
def natTruthy : Option ℕ → Bool
  | none => false
  | some u => u != 0

/-- `determineSightTier(rating?, userRatingsTotal?)` from the sights store:
`if (!rating || !userRatingsTotal) return 2;` then the tier-1 check, then
the tier-3 check, else 2.  The first guard uses JS falsiness, so a present
value `0` takes the same branch as a missing one. -/
def determineSightTier (rating : Option ℚ) (userRatingsTotal : Option ℕ) : ℕ :=
  if !numTruthy rating || !natTruthy userRatingsTotal then 2
  else
    let r := rating.getD 0
    let u := userRatingsTotal.getD 0
    if 43/10 ≤ r ∧ 500 ≤ u then 1
    else if r < 4 ∨ u < 50 then 3
    else 2

/-- Reference classifier following claim C2 word for word: missing rating
or review count gives tier 2; otherwise the tier-1 check has priority;
otherwise rating < 4.0 or review count < 50 gives tier 3 (explicitly
including rating 0 and review count 0); otherwise tier 2. -/
def determineSightTierClaim (rating : Option ℚ) (userRatingsTotal : Option ℕ) : ℕ :=
  match rating, userRatingsTotal with
  | some r, some u =>
    if 43/10 ≤ r ∧ 500 ≤ u then 1
    else if r < 4 ∨ u < 50 then 3
    else 2
  | _, _ => 2

/-- Claim C2's reference classifier amended minimally: a rating or review
count that is missing *or equal to zero* gives tier 2; the remaining
checks are unchanged. -/
def determineSightTierClaimAmended (rating : Option ℚ) (userRatingsTotal : Option ℕ) : ℕ :=
  match rating, userRatingsTotal with
  | some r, some u =>
    if r = 0 ∨ u = 0 then 2
    else if 43/10 ≤ r ∧ 500 ≤ u then 1
    else if r < 4 ∨ u < 50 then 3
    else 2
  | _, _ => 2

/-- The `reduce` pattern used twice by `optimizeTourSimple` to pick the
candidate nearest to `cur`: the JS `array.reduce((closest, sight) => ...)`
folds over the tail with the head as the initial accumulator and keeps the
earlier element on ties (strict `<` comparison).  `none` corresponds to
the empty array, on which the source never calls `reduce`. -/
def reduceNearest (dist : DistFn) (cur : Coord) : List Sight → Option Sight
  | [] => none
  | s :: rest =>
    some (rest.foldl
      (fun closest sight =>
        if dist cur.latitude cur.longitude sight.latitude sight.longitude <
            dist cur.latitude cur.longitude closest.latitude closest.longitude
        then sight else closest) s)

/-- The `while` loop of `optimizeTourSimple`.  `visited` is the JS `Set`
of visited ids (only ids not yet present are ever added, so its size is
the list length); `fuel` bounds the iteration count — the loop adds one
visited id per iteration and is entered only while
`visited.size < sights.length`, so `fuel = sights.length` is never
exhausted before the loop condition fails. -/
def optimizeTourSimpleAux (dist : DistFn) (userLocation : Coord) (sights : List Sight)
    (maxDistance : ℚ) :
    ℕ → List String → List Sight → Coord → ℚ → List Sight
  | 0, _, route, _, _ => route
  | fuel + 1, visited, route, currentLocation, totalDistance =>
    if visited.length < sights.length ∧ visited.length < 8 then
      let unvisited := sights.filter (fun sight => !visited.contains sight.id)
      match reduceNearest dist currentLocation unvisited with
      | none => route
      | some nextSight =>
        let distanceToNext := dist currentLocation.latitude currentLocation.longitude
            nextSight.latitude nextSight.longitude
        let estimatedReturnDistance := dist nextSight.latitude nextSight.longitude
            userLocation.latitude userLocation.longitude * (1/2)
        if maxDistance * (9/10) < totalDistance + distanceToNext + estimatedReturnDistance then
          route
        else
          optimizeTourSimpleAux dist userLocation sights maxDistance fuel
            (visited ++ [nextSight.id]) (route ++ [nextSight])
            ⟨nextSight.latitude, nextSight.longitude⟩ (totalDistance + distanceToNext)
    else route

/-- `optimizeTourSimple(userLocation, sights, maxDistance)`: nearest
neighbour with the budget stopping rule.  The unused `wizardSettings`
parameter of the source is omitted.  The `none` branch of the first
`reduce` is unreachable (the list has at least 2 elements there). -/
def optimizeTourSimple (dist : DistFn) (userLocation : Coord) (sights : List Sight)
    (maxDistance : ℚ) : List Sight :=
  if sights.length ≤ 1 then sights
  else
    match reduceNearest dist userLocation sights with
    | none => sights
    | some closestSight =>
      optimizeTourSimpleAux dist userLocation sights maxDistance sights.length
        [closestSight.id] [closestSight]
        ⟨closestSight.latitude, closestSight.longitude⟩ 0

/-- Accumulated route distance from a given current location: the sum of
the values the loop adds to `totalDistance` while walking the route. -/
def routeAccumFrom (dist : DistFn) : Coord → List Sight → ℚ
  | _, [] => 0
  | cur, s :: rest =>
    dist cur.latitude cur.longitude s.latitude s.longitude +
      routeAccumFrom dist ⟨s.latitude, s.longitude⟩ rest

/-- The loop variable `totalDistance` reconstructed from a route: zero for
the first stop, then the consecutive-stop distances. -/
def routeAccum (dist : DistFn) : List Sight → ℚ
  | [] => 0
  | first :: rest => routeAccumFrom dist ⟨first.latitude, first.longitude⟩ rest

/-- The loop variable `currentLocation` reconstructed from a route: the
coordinates of the last stop, or the given default for an empty route
(defined by traversal, so `lastCoord (s :: rest) c = lastCoord rest`
from `s`). -/
def lastCoord : List Sight → Coord → Coord
  | [], c => c
  | s :: rest, _ => lastCoord rest ⟨s.latitude, s.longitude⟩

/-- Claim C1's admission rule for the stops after the first, starting from
current location `cur` with accumulated distance `acc`: each stop was
admitted only while `acc + distance-to-stop + 0.5 × stop-to-origin`
stayed within `0.9 × budget`. -/
def budgetRuleFrom (dist : DistFn) (origin : Coord) (maxDistance : ℚ) :
    Coord → ℚ → List Sight → Bool
  | _, _, [] => true
  | cur, acc, s :: rest =>
    decide (acc + dist cur.latitude cur.longitude s.latitude s.longitude +
        dist s.latitude s.longitude origin.latitude origin.longitude * (1/2)
      ≤ maxDistance * (9/10)) &&
    budgetRuleFrom dist origin maxDistance ⟨s.latitude, s.longitude⟩
      (acc + dist cur.latitude cur.longitude s.latitude s.longitude) rest

/-- Claim C1's admission rule for a whole route: vacuous for the first
stop, then `budgetRuleFrom` starting at the first stop with accumulated
distance 0. -/
def budgetRuleOk (dist : DistFn) (origin : Coord) (maxDistance : ℚ) : List Sight → Bool
  | [] => true
  | first :: rest =>
    budgetRuleFrom dist origin maxDistance ⟨first.latitude, first.longitude⟩ 0 rest

/-- Claim C1's stopping condition, evaluated at the returned route: either
every candidate's id was visited, or 8 stops were accumulated, or the
nearest remaining candidate would violate the admission inequality. -/
def stoppedValidly (dist : DistFn) (origin : Coord) (sights : List Sight)
    (maxDistance : ℚ) (route : List Sight) : Bool :=
  sights.all (fun s => (route.map Sight.id).contains s.id) ||
  route.length == 8 ||
  (match reduceNearest dist (lastCoord route origin)
      (sights.filter (fun s => !((route.map Sight.id).contains s.id))) with
   | none => false
   | some nextSight =>
     let cur := lastCoord route origin
     decide (maxDistance * (9/10) <
       routeAccum dist route +
       dist cur.latitude cur.longitude nextSight.latitude nextSight.longitude +
       dist nextSight.latitude nextSight.longitude origin.latitude origin.longitude * (1/2)))

/-- `TransportMode` from the settings store. -/
inductive TransportMode
  | walk
  | taxi
  | public
  | mix
  deriving DecidableEq, Repr

/-- `AudioLength` from the settings store (also the per-stop detail level). -/
inductive AudioLength
  | brief
  | medium
  | expert
  deriving DecidableEq, Repr

/-- `TourType` from the settings store. -/
inductive TourType
  | roundTrip
  | pointToPoint
  deriving DecidableEq, Repr

/-- `TourWizardSettings` from the settings store. -/
structure TourWizardSettings where
  numberOfDays : ℕ
  dailyDurationHours : ℚ
  maxLengthKm : ℚ
  transportMode : TransportMode
  interestLevel : List ℕ
  tourType : TourType
  detailLevelPerSight : AudioLength
  deriving DecidableEq, Repr

/-- `getTransportTimeMultiplier(transportMode)`: minutes per km. -/
def getTransportTimeMultiplier : TransportMode → ℚ
  | .walk => 12
  | .taxi => 3
  | .public => 6
  | .mix => 8

/-- `getDetailLevelTime(detailLevel)`: dwell minutes per sight. -/
def getDetailLevelTime : AudioLength → ℕ
  | .brief => 5
  | .medium => 15
  | .expert => 25

/-- The lower-case string value of a `TransportMode` as it appears in the
source union type. -/
def transportModeText : TransportMode → String
  | .walk => "walk"
  | .taxi => "taxi"
  | .public => "public"
  | .mix => "mix"

/-- JS `s.charAt(0).toUpperCase() + s.slice(1)`. -/
def capitalizeText (s : String) : String :=
  match s.toList with
  | [] => ""
  | c :: rest => String.mk (c.toUpper :: rest)

/-- `TourStop extends Sight` from the tour store.  The two optional
fields are modelled as `Option`; the assembler in the source always
populates them (with 0 for the last stop). -/
structure TourStop extends Sight where
  order : ℕ
  distanceToNext : Option ℚ
  walkingTimeToNext : Option ℤ
  deriving DecidableEq, Repr

/-- `Tour` from the tour store.  `createdAt` (a `Date`) is a natural
timestamp, `id` its decimal string as produced by `Date.now().toString()`. -/
structure Tour where
  id : String
  name : String
  sights : List TourStop
  totalDistance : ℚ
  estimatedDuration : ℤ
  createdAt : ℕ
  deriving DecidableEq, Repr

/-- The tour store's state (the persisted slice plus the flags). -/
structure TourState where
  currentTour : Option Tour
  savedTours : List Tour
  isGenerating : Bool
  tourDistance : ℚ
  deriving DecidableEq, Repr

/-- The outcome of the delegated optimizer's `fetch`: `ok` is the HTTP
success flag, `completion` the text completion body. -/
structure FetchResponse where
  ok : Bool
  completion : String
  deriving DecidableEq, Repr

/-- The external call either throws (network error, malformed body — the
`Except.error` case) or yields a response. -/
abbrev FetchResult := Except Unit FetchResponse

/-- Whether the external call failed: it threw, or returned a
non-success response. -/
def aiFailed : FetchResult → Bool
  | .error _ => true
  | .ok response => !response.ok

/-- The errors `generateTour` can throw. -/
inductive TourError
  | noSightsFound
  | couldNotCreateTour
  deriving DecidableEq, Repr

/-- JS `a.toLowerCase().includes(b.toLowerCase())`. -/
def containsLower (a b : String) : Bool :=
  decide (b.toLower.toList <:+: a.toLower.toList)

/-- The `sightNames.forEach` mapping of the delegated optimizer: match
each returned name against the candidates by bidirectional
case-insensitive substring containment, drop unmatched names, keep the
first occurrence of each matched id. -/
def matchAISights (sights : List Sight) (sightNames : List String) : List Sight :=
  sightNames.foldl
    (fun optimizedRoute name =>
      match sights.find? (fun s =>
          containsLower s.name name || containsLower name s.name) with
      | some sight =>
        if (optimizedRoute.find? (fun r => r.id == sight.id)).isSome then optimizedRoute
        else optimizedRoute ++ [sight]
      | none => optimizedRoute)
    []

/-- JS `array.sort((a, b) => (a.distance || 0) - (b.distance || 0))`:
a stable ascending sort on the `distance` field with `undefined` read
as 0, modelled by a stable insertion sort. -/
def sortByDistance (l : List Sight) : List Sight :=
  List.insertionSort (fun a b => a.distance.getD 0 ≤ b.distance.getD 0) l

/-- `optimizeTourWithAI(userLocation, sights, maxDistance)`: on a thrown
error or non-success response fall back to the heuristic; otherwise split
the completion on commas, fuzzy-match the names, top up to at least 3
stops with the nearest unused candidates (at most 5 added), and fall back
to the heuristic if the result is empty. -/
def optimizeTourWithAI (dist : DistFn) (userLocation : Coord) (sights : List Sight)
    (maxDistance : ℚ) (fetchResult : FetchResult) : List Sight :=
  match fetchResult with
  | .error _ => optimizeTourSimple dist userLocation sights maxDistance
  | .ok response =>
    if !response.ok then optimizeTourSimple dist userLocation sights maxDistance
    else
      let sightNames := (response.completion.splitOn ",").map (fun name => name.trim)
      let optimizedRoute := matchAISights sights sightNames
      let optimizedRoute :=
        if optimizedRoute.length < 3 then
          let remainingSights := sortByDistance (sights.filter
            (fun sight => !((optimizedRoute.find? (fun r => r.id == sight.id)).isSome)))
          optimizedRoute ++ remainingSights.take (min 5 remainingSights.length)
        else optimizedRoute
      if 0 < optimizedRoute.length then optimizedRoute
      else optimizeTourSimple dist userLocation sights maxDistance

/-- The tier filter of `generateTour`: keep the sights whose tier is in
`wizardSettings.interestLevel`, when wizard settings were supplied. -/
def filteredSightsOf (wizardSettings : Option TourWizardSettings)
    (availableSights : List Sight) : List Sight :=
  match wizardSettings with
  | some ws => availableSights.filter (fun sight => ws.interestLevel.contains sight.tier)
  | none => availableSights

/-- The radius filter of `generateTour`:
`sight.distance !== undefined && sight.distance <= maxDistance`. -/
def nearSightsOf (maxDistance : ℚ) (filteredSights : List Sight) : List Sight :=
  filteredSights.filter (fun sight =>
    match sight.distance with
    | some d => decide (d ≤ maxDistance)
    | none => false)

/-- The expanded radius filter of `generateTour` at `1.5 × maxDistance`. -/
def expandedSightsOf (maxDistance : ℚ) (filteredSights : List Sight) : List Sight :=
  filteredSights.filter (fun sight =>
    match sight.distance with
    | some d => decide (d ≤ maxDistance * (3/2))
    | none => false)

/-- The candidate-selection step of `generateTour`: the base-radius
candidates if any; otherwise the closest up to 8 expanded-radius
candidates pushed onto the (empty) base list; otherwise the
no-sights-found error. -/
def candidatesResult (maxDistance : ℚ) (filteredSights : List Sight) :
    Except TourError (List Sight) :=
  let nearSights := nearSightsOf maxDistance filteredSights
  if nearSights.length = 0 then
    let expandedSights := expandedSightsOf maxDistance filteredSights
    if expandedSights.length = 0 then .error .noSightsFound
    else
      let sortedSights := sortByDistance expandedSights
      .ok (nearSights ++ sortedSights.take (min 8 sortedSights.length))
  else .ok nearSights

/-- The optimizer dispatch of `generateTour`: the delegated optimizer when
an OpenAI key is configured (a non-empty, hence truthy, string) and more
than 3 candidates remain, else the heuristic. -/
def routeOf (dist : DistFn) (openAiApiKey : String) (fetchResult : FetchResult)
    (userLocation : Coord) (maxDistance : ℚ) (nearSights : List Sight) : List Sight :=
  if openAiApiKey ≠ "" ∧ 3 < nearSights.length then
    optimizeTourWithAI dist userLocation nearSights maxDistance fetchResult
  else
    optimizeTourSimple dist userLocation nearSights maxDistance

/-- The body of the `optimizedRoute.map((sight, index) => ...)` callback
of `generateTour`: the sight is spread into a `TourStop` with its 1-based
`order`; a stop with a successor gets the distance to it and the travel
time `Math.ceil(distance × multiplier)`, the last stop keeps the
initialized values 0 for both fields. -/
def mkStop (dist : DistFn) (wizardSettings : Option TourWizardSettings)
    (optimizedRoute : List Sight) (index : ℕ) (sight : Sight) : TourStop :=
  match optimizedRoute[index + 1]? with
  | some nextSight =>
    let distanceToNext := dist sight.latitude sight.longitude
        nextSight.latitude nextSight.longitude
    let transportMultiplier :=
      match wizardSettings with
      | some ws => getTransportTimeMultiplier ws.transportMode
      | none => 12
    { toSight := sight, order := index + 1,
      distanceToNext := some distanceToNext,
      walkingTimeToNext := some ⌈distanceToNext * transportMultiplier⌉ }
  | none =>
    { toSight := sight, order := index + 1,
      distanceToNext := some 0, walkingTimeToNext := some 0 }

/-- The per-stop assembly of `generateTour`: map `mkStop` over the route
with indices. -/
def assembleTourStops (dist : DistFn) (wizardSettings : Option TourWizardSettings)
    (optimizedRoute : List Sight) : List TourStop :=
  optimizedRoute.enum.map (fun p => mkStop dist wizardSettings optimizedRoute p.1 p.2)

/-- The tour-construction tail of `generateTour`: aggregate statistics
and the synthesized name.  `now` is `Date.now()`. -/
def buildTour (dist : DistFn) (wizardSettings : Option TourWizardSettings) (now : ℕ)
    (optimizedRoute : List Sight) : Tour :=
  let tourStops := assembleTourStops dist wizardSettings optimizedRoute
  let totalWalkingDistance :=
    tourStops.foldl (fun sum stop => sum + stop.distanceToNext.getD 0) 0
  let totalWalkingTime :=
    tourStops.foldl (fun sum stop => sum + stop.walkingTimeToNext.getD 0) 0
  let sightTimePerStop :=
    match wizardSettings with
    | some ws => getDetailLevelTime ws.detailLevelPerSight
    | none => 15
  let totalSightTime := tourStops.length * sightTimePerStop
  { id := toString now,
    name :=
      match wizardSettings with
      | some ws =>
        toString ws.numberOfDays ++ "-Day " ++
          capitalizeText (transportModeText ws.transportMode) ++ " Tour"
      | none => toString tourStops.length ++ "-Stop Tour",
    sights := tourStops,
    totalDistance := totalWalkingDistance,
    estimatedDuration := totalWalkingTime + (totalSightTime : ℤ),
    createdAt := now }

/-- The state in force while `generateTour` runs: the busy flag set at
entry by `set({ isGenerating: true })`. -/
def stateDuring (state : TourState) : TourState :=
  { state with isGenerating := true }

/-- The `try` body of `generateTour` together with its `finally` clause:
filter, pick candidates (throwing when none match), optimize (throwing on
an empty route), assemble, publish; the busy flag is cleared on every
path. -/
def generateTourBody (dist : DistFn) (openAiApiKey : String) (fetchResult : FetchResult)
    (now : ℕ) (userLocation : Coord) (maxDistance : ℚ) (availableSights : List Sight)
    (wizardSettings : Option TourWizardSettings) (state : TourState) :
    TourState × Except TourError Unit :=
  match candidatesResult maxDistance (filteredSightsOf wizardSettings availableSights) with
  | .error e => ({ state with isGenerating := false }, .error e)
  | .ok nearSights =>
    let optimizedRoute := routeOf dist openAiApiKey fetchResult userLocation maxDistance nearSights
    if optimizedRoute.length = 0 then
      ({ state with isGenerating := false }, .error .couldNotCreateTour)
    else
      ({ state with
          currentTour := some (buildTour dist wizardSettings now optimizedRoute),
          isGenerating := false },
        .ok ())

/-- `generateTour(userLocation, maxDistance, availableSights,
wizardSettings?)`: set the busy flag, run the body, clear the flag on
every exit path (the `finally` clause), rethrowing any error. -/
def generateTour (dist : DistFn) (openAiApiKey : String) (fetchResult : FetchResult)
    (now : ℕ) (userLocation : Coord) (maxDistance : ℚ) (availableSights : List Sight)
    (wizardSettings : Option TourWizardSettings) (state : TourState) :
    TourState × Except TourError Unit :=
  generateTourBody dist openAiApiKey fetchResult now userLocation maxDistance
    availableSights wizardSettings (stateDuring state)

/-- `saveTour(name)`: no-op without a current tour; otherwise rename the
current tour (an empty, falsy, name keeps the old one) and update the
saved entry with the same id, or append. -/
def saveTour (name : String) (s : TourState) : TourState :=
  match s.currentTour with
  | none => s
  | some currentTour =>
    let tourToSave : Tour :=
      { currentTour with name := if name = "" then currentTour.name else name }
    match s.savedTours.findIdx? (fun tour => tour.id == tourToSave.id) with
    | some existingIndex =>
      { s with savedTours := s.savedTours.set existingIndex tourToSave }
    | none =>
      { s with savedTours := s.savedTours ++ [tourToSave] }

/-- `loadTour(tourId)`: publish the first saved tour with that id as the
current tour, if any. -/
def loadTour (tourId : String) (s : TourState) : TourState :=
  match s.savedTours.find? (fun t => t.id == tourId) with
  | some tour => { s with currentTour := some tour }
  | none => s

/-- `deleteTour(tourId)`: drop every saved tour with that id. -/
def deleteTour (tourId : String) (s : TourState) : TourState :=
  { s with savedTours := s.savedTours.filter (fun tour => tour.id != tourId) }

/-- `clearTour()`. -/
def clearTour (s : TourState) : TourState :=
  { s with currentTour := none }

/-- A constant distance function, used to instantiate the parametric
`calculateDistance` in concrete evaluations. -/
def constDist (q : ℚ) : DistFn := fun _ _ _ _ => q

/-- A sight value for the concrete evaluations. -/
def mkDemoSight (id name : String) (d : Option ℚ) (tier : ℕ) : Sight :=
  { id := id, name := name, category := "Attraction", latitude := 0, longitude := 0,
    distance := d, rating := none, tier := tier }

/-- The origin used by the concrete evaluations. -/
def demoOrigin : Coord := ⟨0, 0⟩

/-- The initial store state used by the concrete evaluations. -/
def demoState : TourState :=
  { currentTour := none, savedTours := [], isGenerating := false, tourDistance := 5 }

/-- Wizard settings used by the concrete evaluations. -/
def demoWS : TourWizardSettings :=
  { numberOfDays := 1, dailyDurationHours := 4, maxLengthKm := 5,
    transportMode := .walk, interestLevel := [1, 2, 3], tourType := .roundTrip,
    detailLevelPerSight := .medium }

/-- Three candidates inside the base radius. -/
def demoSightsNear : List Sight :=
  [mkDemoSight "a" "Alpha" (some 1) 1, mkDemoSight "b" "Beta" (some 2) 2,
   mkDemoSight "c" "Gamma" (some 3) 1]

/-- Two candidates outside the base radius 10 but inside `1.5 × 10`. -/
def demoSightsFar : List Sight :=
  [mkDemoSight "a" "Alpha" (some 12) 1, mkDemoSight "b" "Beta" (some 12) 2]

/-- Four candidates inside the base radius (enough for the delegated
optimizer's `> 3` threshold). -/
def demoSightsFour : List Sight :=
  [mkDemoSight "a" "Alpha" (some 1) 1, mkDemoSight "b" "Beta" (some 2) 2,
   mkDemoSight "c" "Gamma" (some 3) 1, mkDemoSight "d" "Delta" (some 4) 2]

/-- Candidates whose distance-from-user field is absent. -/
def demoSightsNoDist : List Sight :=
  [mkDemoSight "a" "Alpha" none 1, mkDemoSight "b" "Beta" none 2]

/-- A current tour for the save/load round-trip evaluation. -/
def demoTour : Tour :=
  { id := "100", name := "Old",
    sights := [{ toSight := mkDemoSight "a" "Alpha" (some 1) 1, order := 1,
                 distanceToNext := some 0, walkingTimeToNext := some 0 }],
    totalDistance := 0, estimatedDuration := 15, createdAt := 100 }

/-- A single candidate inside the base radius. -/
def demoSightsOne : List Sight := [mkDemoSight "a" "Alpha" (some 1) 1]

/-- Concrete run: heuristic path over three candidates with wizard
settings. -/
def demoRun5 : TourState × Except TourError Unit :=
  generateTour (constDist 1) "" (.error ()) 0 demoOrigin 100 demoSightsNear
    (some demoWS) demoState

/-- The tour published by `demoRun5`. -/
def demoTour5 : Tour :=
  demoRun5.1.currentTour.getD (buildTour (constDist 1) (some demoWS) 0 [])

/-- Concrete run: heuristic path over a single candidate. -/
def demoRun1 : TourState × Except TourError Unit :=
  generateTour (constDist 1) "" (.error ()) 0 demoOrigin 100 demoSightsOne none demoState

/-- The tour published by `demoRun1`. -/
def demoTour1 : Tour :=
  demoRun1.1.currentTour.getD (buildTour (constDist 1) none 0 [])

/-- Concrete run: delegated path (credential configured, four candidates)
whose external call throws. -/
def demoRun4 : TourState × Except TourError Unit :=
  generateTour (constDist 1) "k" (.error ()) 0 demoOrigin 100 demoSightsFour
    (some demoWS) demoState

/-- The tour published by `demoRun4`. -/
def demoTour4 : Tour :=
  demoRun4.1.currentTour.getD (buildTour (constDist 1) (some demoWS) 0 [])

/-- Concrete run: the primary radius pass finds nothing, the 1.5× retry
finds both far candidates, and the pairwise geometric distance 20 makes
the heuristic optimizer drop the second of them. -/
def demoRun3 : TourState × Except TourError Unit :=
  generateTour (constDist 20) "" (.error ()) 0 demoOrigin 10 demoSightsFar none demoState

/-- The tour published by `demoRun3`. -/
def demoTour3 : Tour :=
  demoRun3.1.currentTour.getD (buildTour (constDist 20) none 0 [])

/-! ## Helper lemmas -/

theorem foldl_add_map_sum {α β : Type} [AddCommMonoid β] (f : α → β) :
    ∀ (l : List α) (init : β),
      l.foldl (fun sum x => sum + f x) init = init + (l.map f).sum := by
  intro l
  induction l with
  | nil => intro init; simp
  | cons x t ih => intro init; simp [ih, add_assoc]

theorem find?_set_of_findIdx? {α : Type} (p : α → Bool) (x : α) (hx : p x = true) :
    ∀ (l : List α) (i : ℕ), l.findIdx? p = some i → (l.set i x).find? p = some x := by
  intro l
  induction l with
  | nil => intro i h; simp at h
  | cons a t ih =>
    intro i h
    by_cases hp : p a = true
    · have : i = 0 := by simp [List.findIdx?_cons, hp] at h; omega
      subst this
      simpa using List.find?_cons_of_pos _ hx
    · have hpa : p a = false := by simp [hp]
      simp [List.findIdx?_cons, hpa] at h
      rcases h with ⟨j, hj, rfl⟩
      rw [List.set_cons_succ, List.find?_cons_of_neg _ (by simp [hpa])]
      exact ih j hj

theorem find?_append_of_findIdx?_none {α : Type} (p : α → Bool) (x : α) (hx : p x = true)
    (l : List α) (h : l.findIdx? p = none) : (l ++ [x]).find? p = some x := by
  have hall : ∀ a ∈ l, p a = false := by
    intro a ha
    exact List.findIdx?_eq_none_iff.1 h a ha
  have hnone : l.find? p = none := List.find?_eq_none.2 (by intro a ha; simp [hall a ha])
  simp [List.find?_append, hnone, hx]

/-! ## Claim C2: the tier classifier versus its reference definition -/

/-- C2 (counterexample): the claim's reference classifier demands tier 3
for a present rating 0 with 1000 reviews, but `determineSightTier`'s JS
falsy guard `!rating` treats the present rating 0 like a missing one and
returns tier 2. -/
theorem determineSightTier_c2_cex :
    determineSightTier (some 0) (some 1000) = 2 ∧
    determineSightTierClaim (some 0) (some 1000) = 3 ∧
    determineSightTier (some 0) (some 1000) ≠
      determineSightTierClaim (some 0) (some 1000) := by
  have h1 : determineSightTier (some 0) (some 1000) = 2 := by
    simp [determineSightTier, numTruthy]
  have h2 : determineSightTierClaim (some 0) (some 1000) = 3 := by
    simp only [determineSightTierClaim]
    norm_num
  exact ⟨h1, h2, by rw [h1, h2]; decide⟩

/-- C2 (amended): `determineSightTier` agrees everywhere with the claim's
reference definition amended so that a rating or review count that is
missing or zero yields tier 2; the tier-1 priority check and the tier-3
check are exactly as the claim states them. -/
theorem determineSightTier_c2 (rating : Option ℚ) (userRatingsTotal : Option ℕ) :
    determineSightTier rating userRatingsTotal =
      determineSightTierClaimAmended rating userRatingsTotal := by
  rcases rating with _ | r <;> rcases userRatingsTotal with _ | u <;>
    simp only [determineSightTier, determineSightTierClaimAmended, numTruthy, natTruthy,
      Bool.not_false, Bool.true_or, Bool.or_true, if_true]
  · by_cases hr : r = 0 <;> by_cases hu : u = 0 <;>
      simp [hr, hu, Option.getD]

/-! ## Claim C8: the busy flag is cleared on every exit path -/

/-- C8: `generateTour` runs its body on the state with `isGenerating` set
at entry, and on every exit path — success, the no-matching-candidates
error, or the empty-route error — the returned state has `isGenerating`
false. -/
theorem generateTour_c8 (dist : DistFn) (openAiApiKey : String) (fetchResult : FetchResult)
    (now : ℕ) (userLocation : Coord) (maxDistance : ℚ) (availableSights : List Sight)
    (wizardSettings : Option TourWizardSettings) (state : TourState) :
    (stateDuring state).isGenerating = true ∧
    ((generateTour dist openAiApiKey fetchResult now userLocation maxDistance
        availableSights wizardSettings state).1).isGenerating = false := by
  refine ⟨rfl, ?_⟩
  unfold generateTour generateTourBody
  cases candidatesResult maxDistance (filteredSightsOf wizardSettings availableSights) with
  | error e => rfl
  | ok nearSights =>
    by_cases h : (routeOf dist openAiApiKey fetchResult userLocation maxDistance
        nearSights).length = 0 <;> simp [h]

/-! ## Claim C9: save/load round trip -/

/-- C9: with a current tour and a non-empty name `X`, `saveTour X`
followed by `loadTour` of the current tour's id publishes a current tour
named `X` whose stop sequence is the one current at save time (the save
updated the saved entry with that id, or appended a new one). -/
theorem saveTour_loadTour_c9 (s : TourState) (ct : Tour) (X : String)
    (hct : s.currentTour = some ct) (hX : X ≠ "") :
    ∃ t, (loadTour ct.id (saveTour X s)).currentTour = some t ∧
      t.name = X ∧ t.sights = ct.sights := by
  refine ⟨{ ct with name := X }, ?_, rfl, rfl⟩
  unfold saveTour
  rw [hct]
  simp only [hX, if_false]
  cases hidx : s.savedTours.findIdx? (fun tour => tour.id == ct.id) with
  | some i =>
    have key := find?_set_of_findIdx? (fun tour => tour.id == ct.id)
      ({ ct with name := X }) (by simp) s.savedTours i hidx
    simp only [hidx]
    unfold loadTour
    simp [key]
  | none =>
    have key := find?_append_of_findIdx?_none (fun tour => tour.id == ct.id)
      ({ ct with name := X }) (by simp) s.savedTours hidx
    simp only [hidx]
    unfold loadTour
    simp [key]

/-! ## Assembler lemmas -/

theorem mkStop_order (dist : DistFn) (ws : Option TourWizardSettings)
    (route : List Sight) (i : ℕ) (s : Sight) : (mkStop dist ws route i s).order = i + 1 := by
  unfold mkStop
  split <;> rfl

theorem mkStop_toSight (dist : DistFn) (ws : Option TourWizardSettings)
    (route : List Sight) (i : ℕ) (s : Sight) : (mkStop dist ws route i s).toSight = s := by
  unfold mkStop
  split <;> rfl

theorem mkStop_next (dist : DistFn) (ws : Option TourWizardSettings)
    (route : List Sight) (i : ℕ) (s nxt : Sight) (h : route[i+1]? = some nxt) :
    (mkStop dist ws route i s).distanceToNext =
      some (dist s.latitude s.longitude nxt.latitude nxt.longitude) ∧
    (mkStop dist ws route i s).walkingTimeToNext =
      some ⌈dist s.latitude s.longitude nxt.latitude nxt.longitude *
        (match ws with
         | some w => getTransportTimeMultiplier w.transportMode
         | none => 12)⌉ := by
  unfold mkStop
  simp [h]

theorem mkStop_last (dist : DistFn) (ws : Option TourWizardSettings)
    (route : List Sight) (i : ℕ) (s : Sight) (h : route[i+1]? = none) :
    (mkStop dist ws route i s).distanceToNext = some 0 ∧
    (mkStop dist ws route i s).walkingTimeToNext = some 0 := by
  unfold mkStop
  simp [h]

theorem assembleTourStops_length (dist : DistFn) (ws : Option TourWizardSettings)
    (route : List Sight) : (assembleTourStops dist ws route).length = route.length := by
  simp [assembleTourStops]

theorem assembleTourStops_getElem? (dist : DistFn) (ws : Option TourWizardSettings)
    (route : List Sight) (i : ℕ) :
    (assembleTourStops dist ws route)[i]? =
      (route[i]?).map (fun s => mkStop dist ws route i s) := by
  simp [assembleTourStops, List.enum, List.getElem?_enumFrom, Option.map_map]
  rfl

theorem assembleTourStops_map_toSight (dist : DistFn) (ws : Option TourWizardSettings)
    (route : List Sight) :
    (assembleTourStops dist ws route).map TourStop.toSight = route := by
  unfold assembleTourStops
  rw [List.map_map]
  have hf : (TourStop.toSight ∘ fun p : ℕ × Sight => mkStop dist ws route p.1 p.2) =
      Prod.snd := by
    funext p
    simp [mkStop_toSight]
  rw [hf]
  exact List.enumFrom_map_snd 0 route

theorem buildTour_sights (dist : DistFn) (ws : Option TourWizardSettings) (now : ℕ)
    (route : List Sight) :
    (buildTour dist ws now route).sights = assembleTourStops dist ws route := rfl

theorem buildTour_totalDistance (dist : DistFn) (ws : Option TourWizardSettings) (now : ℕ)
    (route : List Sight) :
    (buildTour dist ws now route).totalDistance =
      ((buildTour dist ws now route).sights.map (fun s => s.distanceToNext.getD 0)).sum := by
  show (assembleTourStops dist ws route).foldl (fun sum stop => sum + stop.distanceToNext.getD 0) 0 = _
  rw [foldl_add_map_sum]
  simp [buildTour_sights]

theorem buildTour_estimatedDuration (dist : DistFn) (ws : TourWizardSettings) (now : ℕ)
    (route : List Sight) :
    (buildTour dist (some ws) now route).estimatedDuration =
      ((buildTour dist (some ws) now route).sights.map
        (fun s => s.walkingTimeToNext.getD 0)).sum +
      ((buildTour dist (some ws) now route).sights.length *
        getDetailLevelTime ws.detailLevelPerSight : ℕ) := by
  show (assembleTourStops dist (some ws) route).foldl
      (fun sum stop => sum + stop.walkingTimeToNext.getD 0) 0 +
      (((assembleTourStops dist (some ws) route).length *
        getDetailLevelTime ws.detailLevelPerSight : ℕ) : ℤ) = _
  rw [foldl_add_map_sum]
  simp [buildTour_sights]

/-! ## Success inversion for `generateTour` -/

theorem generateTour_success_inv (dist : DistFn) (key : String) (fetch : FetchResult)
    (now : ℕ) (loc : Coord) (maxD : ℚ) (avail : List Sight)
    (ws : Option TourWizardSettings) (state : TourState)
    (h : (generateTour dist key fetch now loc maxD avail ws state).2 = .ok ()) :
    ∃ nearSights,
      candidatesResult maxD (filteredSightsOf ws avail) = .ok nearSights ∧
      routeOf dist key fetch loc maxD nearSights ≠ [] ∧
      (generateTour dist key fetch now loc maxD avail ws state).1.currentTour =
        some (buildTour dist ws now (routeOf dist key fetch loc maxD nearSights)) := by
  unfold generateTour generateTourBody at h ⊢
  cases hc : candidatesResult maxD (filteredSightsOf ws avail) with
  | error e =>
    rw [hc] at h
    simp at h
  | ok ns =>
    rw [hc] at h
    by_cases hlen : routeOf dist key fetch loc maxD ns = []
    · simp [hlen] at h
    · refine ⟨ns, rfl, hlen, ?_⟩
      simp [hlen]

/-! ## Per-tour inversion and claims C5, C6, C7 -/

theorem generateTour_tour_inv (dist : DistFn) (key : String) (fetch : FetchResult)
    (now : ℕ) (loc : Coord) (maxD : ℚ) (avail : List Sight)
    (ws : Option TourWizardSettings) (state : TourState) (tour : Tour)
    (hok : (generateTour dist key fetch now loc maxD avail ws state).2 = .ok ())
    (htour : (generateTour dist key fetch now loc maxD avail ws state).1.currentTour =
      some tour) :
    ∃ nearSights,
      candidatesResult maxD (filteredSightsOf ws avail) = .ok nearSights ∧
      routeOf dist key fetch loc maxD nearSights ≠ [] ∧
      tour = buildTour dist ws now (routeOf dist key fetch loc maxD nearSights) := by
  obtain ⟨ns, hc, hne, heq⟩ :=
    generateTour_success_inv dist key fetch now loc maxD avail ws state hok
  rw [htour] at heq
  exact ⟨ns, hc, hne, (Option.some.inj heq)⟩

theorem assembled_getElem (dist : DistFn) (ws : Option TourWizardSettings) (now : ℕ)
    (route : List Sight) (i : ℕ)
    (h : i < (buildTour dist ws now route).sights.length) (hr : i < route.length) :
    (buildTour dist ws now route).sights[i] = mkStop dist ws route i route[i] := by
  have q1 : (buildTour dist ws now route).sights[i]? =
      some ((buildTour dist ws now route).sights[i]) :=
    List.getElem?_eq_getElem h
  have q2 : (buildTour dist ws now route).sights[i]? =
      some (mkStop dist ws route i route[i]) := by
    rw [buildTour_sights, assembleTourStops_getElem?, List.getElem?_eq_getElem hr]
    rfl
  exact Option.some.inj (q1.symm.trans q2)

theorem assembled_length (dist : DistFn) (ws : Option TourWizardSettings) (now : ℕ)
    (route : List Sight) :
    (buildTour dist ws now route).sights.length = route.length := by
  rw [buildTour_sights, assembleTourStops_length]

/-- C6: every tour published by a successful `generateTour` run (either
optimizer path) has `order` values exactly `1..N` matching the 1-based
array position of each stop. -/
theorem generateTour_order_contiguous_c6 (dist : DistFn) (key : String)
    (fetch : FetchResult) (now : ℕ) (loc : Coord) (maxD : ℚ) (avail : List Sight)
    (ws : Option TourWizardSettings) (state : TourState) (tour : Tour)
    (hok : (generateTour dist key fetch now loc maxD avail ws state).2 = .ok ())
    (htour : (generateTour dist key fetch now loc maxD avail ws state).1.currentTour =
      some tour) :
    ∀ i, (h : i < tour.sights.length) → (tour.sights.get ⟨i, h⟩).order = i + 1 := by
  obtain ⟨ns, hc, hne, rfl⟩ :=
    generateTour_tour_inv dist key fetch now loc maxD avail ws state tour hok htour
  intro i h
  have hr : i < (routeOf dist key fetch loc maxD ns).length := by
    rwa [assembled_length] at h
  rw [List.get_eq_getElem, assembled_getElem dist ws now _ i h hr, mkStop_order]

/-- C6 (witness): the concrete three-stop heuristic run. -/
theorem generateTour_order_contiguous_c6_witness :
    demoRun5.2 = .ok () ∧
    demoRun5.1.currentTour = some demoTour5 ∧
    (∀ i, (h : i < demoTour5.sights.length) → (demoTour5.sights.get ⟨i, h⟩).order = i + 1) :=
  ⟨by with_unfolding_all rfl, by with_unfolding_all rfl,
    generateTour_order_contiguous_c6 (constDist 1) "" (.error ()) 0 demoOrigin 100
      demoSightsNear (some demoWS) demoState demoTour5
      (by with_unfolding_all rfl) (by with_unfolding_all rfl)⟩

/-- C7 (counterexample): in the concrete single-stop run the final stop's
`distanceToNext` and `walkingTimeToNext` are present with value 0, not
absent as the claim states. -/
theorem generateTour_last_stop_c7_cex :
    demoRun1.2 = .ok () ∧
    demoRun1.1.currentTour = some demoTour1 ∧
    (demoTour1.sights.getLast?).map TourStop.distanceToNext = some (some 0) ∧
    (demoTour1.sights.getLast?).map TourStop.walkingTimeToNext = some (some 0) :=
  ⟨by with_unfolding_all rfl, by with_unfolding_all rfl,
   by with_unfolding_all rfl, by with_unfolding_all rfl⟩

/-- C7 (amended): for every assembled tour with at least one stop, the
final stop's `distanceToNext` and `walkingTimeToNext` fields are present
with value 0 (the assembler populates them with the initialized zeros
instead of leaving them absent). -/
theorem generateTour_last_stop_c7 (dist : DistFn) (key : String)
    (fetch : FetchResult) (now : ℕ) (loc : Coord) (maxD : ℚ) (avail : List Sight)
    (ws : Option TourWizardSettings) (state : TourState) (tour : Tour)
    (hok : (generateTour dist key fetch now loc maxD avail ws state).2 = .ok ())
    (htour : (generateTour dist key fetch now loc maxD avail ws state).1.currentTour =
      some tour)
    (hne : tour.sights ≠ []) :
    (tour.sights.getLast hne).distanceToNext = some 0 ∧
    (tour.sights.getLast hne).walkingTimeToNext = some 0 := by
  obtain ⟨ns, hc, hrne, htoureq⟩ :=
    generateTour_tour_inv dist key fetch now loc maxD avail ws state tour hok htour
  subst htoureq
  rw [List.getLast_eq_getElem]
  have hlen0 : (routeOf dist key fetch loc maxD ns).length ≠ 0 := by
    simpa [List.length_eq_zero] using hrne
  have hlen := assembled_length dist ws now (routeOf dist key fetch loc maxD ns)
  have h : (buildTour dist ws now (routeOf dist key fetch loc maxD ns)).sights.length - 1 <
      (buildTour dist ws now (routeOf dist key fetch loc maxD ns)).sights.length := by
    omega
  have hr : (buildTour dist ws now (routeOf dist key fetch loc maxD ns)).sights.length - 1 <
      (routeOf dist key fetch loc maxD ns).length := by
    omega
  rw [assembled_getElem dist ws now (routeOf dist key fetch loc maxD ns) _ h hr]
  exact mkStop_last dist ws _ _ _ (List.getElem?_eq_none (by omega))

/-- C7 (witness): the concrete single-stop run. -/
theorem generateTour_last_stop_c7_witness :
    demoRun1.2 = .ok () ∧
    demoRun1.1.currentTour = some demoTour1 ∧
    demoTour1.sights ≠ [] ∧
    ((demoTour1.sights.getLast (by with_unfolding_all decide)).distanceToNext = some 0 ∧
     (demoTour1.sights.getLast (by with_unfolding_all decide)).walkingTimeToNext = some 0) :=
  ⟨by with_unfolding_all rfl, by with_unfolding_all rfl, by with_unfolding_all decide,
    generateTour_last_stop_c7 (constDist 1) "" (.error ()) 0 demoOrigin 100
      demoSightsOne none demoState demoTour1
      (by with_unfolding_all rfl) (by with_unfolding_all rfl)
      (by with_unfolding_all decide)⟩

/-! ## Claim C5: per-stop travel times and aggregate statistics -/

/-- C5: in every tour assembled by a successful `generateTour` run with
wizard settings, each non-final stop carries the distance to the next stop
and the travel time `⌈distance × minutes-per-km(transportMode)⌉`
(walk 12, taxi 3, public 6, mix 8); `totalDistance` is the sum of the
stops' `distanceToNext` values and `estimatedDuration` is the sum of the
`walkingTimeToNext` values plus stop count times the dwell minutes of the
detail level (brief 5, medium 15, expert 25). -/
theorem generateTour_metrics_c5 (dist : DistFn) (key : String)
    (fetch : FetchResult) (now : ℕ) (loc : Coord) (maxD : ℚ) (avail : List Sight)
    (ws : TourWizardSettings) (state : TourState) (tour : Tour)
    (hok : (generateTour dist key fetch now loc maxD avail (some ws) state).2 = .ok ())
    (htour : (generateTour dist key fetch now loc maxD avail (some ws)
        state).1.currentTour = some tour) :
    (∀ i, (h1 : i + 1 < tour.sights.length) →
      (tour.sights.get ⟨i, Nat.lt_of_succ_lt h1⟩).distanceToNext =
        some (dist (tour.sights.get ⟨i, Nat.lt_of_succ_lt h1⟩).latitude
          (tour.sights.get ⟨i, Nat.lt_of_succ_lt h1⟩).longitude
          (tour.sights.get ⟨i + 1, h1⟩).latitude
          (tour.sights.get ⟨i + 1, h1⟩).longitude) ∧
      (tour.sights.get ⟨i, Nat.lt_of_succ_lt h1⟩).walkingTimeToNext =
        some ⌈dist (tour.sights.get ⟨i, Nat.lt_of_succ_lt h1⟩).latitude
          (tour.sights.get ⟨i, Nat.lt_of_succ_lt h1⟩).longitude
          (tour.sights.get ⟨i + 1, h1⟩).latitude
          (tour.sights.get ⟨i + 1, h1⟩).longitude *
          getTransportTimeMultiplier ws.transportMode⌉) ∧
    tour.totalDistance = (tour.sights.map (fun s => s.distanceToNext.getD 0)).sum ∧
    tour.estimatedDuration =
      (tour.sights.map (fun s => s.walkingTimeToNext.getD 0)).sum +
        (tour.sights.length * getDetailLevelTime ws.detailLevelPerSight : ℕ) := by
  obtain ⟨ns, hc, hrne, htoureq⟩ :=
    generateTour_tour_inv dist key fetch now loc maxD avail (some ws) state tour hok htour
  subst htoureq
  refine ⟨?_, buildTour_totalDistance dist (some ws) now _,
    buildTour_estimatedDuration dist ws now _⟩
  intro i h1
  have hlen := assembled_length dist (some ws) now (routeOf dist key fetch loc maxD ns)
  have h : i < (buildTour dist (some ws) now
      (routeOf dist key fetch loc maxD ns)).sights.length := Nat.lt_of_succ_lt h1
  have hr : i < (routeOf dist key fetch loc maxD ns).length := by omega
  have hr1 : i + 1 < (routeOf dist key fetch loc maxD ns).length := by omega
  simp only [List.get_eq_getElem]
  rw [assembled_getElem dist (some ws) now _ i h hr,
    assembled_getElem dist (some ws) now _ (i + 1) h1 hr1]
  have hnx : (routeOf dist key fetch loc maxD ns)[i + 1]? =
      some ((routeOf dist key fetch loc maxD ns)[i + 1]) :=
    List.getElem?_eq_getElem hr1
  have hmk := mkStop_next dist (some ws) (routeOf dist key fetch loc maxD ns) i
    ((routeOf dist key fetch loc maxD ns)[i])
    ((routeOf dist key fetch loc maxD ns)[i + 1]) hnx
  rw [mkStop_toSight, mkStop_toSight]
  exact hmk

/-- C5 (witness): the concrete three-stop heuristic run with wizard
settings. -/
theorem generateTour_metrics_c5_witness :
    demoRun5.2 = .ok () ∧
    demoRun5.1.currentTour = some demoTour5 ∧
    ((∀ i, (h1 : i + 1 < demoTour5.sights.length) →
      (demoTour5.sights.get ⟨i, Nat.lt_of_succ_lt h1⟩).distanceToNext =
        some (constDist 1 (demoTour5.sights.get ⟨i, Nat.lt_of_succ_lt h1⟩).latitude
          (demoTour5.sights.get ⟨i, Nat.lt_of_succ_lt h1⟩).longitude
          (demoTour5.sights.get ⟨i + 1, h1⟩).latitude
          (demoTour5.sights.get ⟨i + 1, h1⟩).longitude) ∧
      (demoTour5.sights.get ⟨i, Nat.lt_of_succ_lt h1⟩).walkingTimeToNext =
        some ⌈constDist 1 (demoTour5.sights.get ⟨i, Nat.lt_of_succ_lt h1⟩).latitude
          (demoTour5.sights.get ⟨i, Nat.lt_of_succ_lt h1⟩).longitude
          (demoTour5.sights.get ⟨i + 1, h1⟩).latitude
          (demoTour5.sights.get ⟨i + 1, h1⟩).longitude *
          getTransportTimeMultiplier demoWS.transportMode⌉) ∧
    demoTour5.totalDistance =
      (demoTour5.sights.map (fun s => s.distanceToNext.getD 0)).sum ∧
    demoTour5.estimatedDuration =
      (demoTour5.sights.map (fun s => s.walkingTimeToNext.getD 0)).sum +
        (demoTour5.sights.length * getDetailLevelTime demoWS.detailLevelPerSight : ℕ)) :=
  ⟨by with_unfolding_all rfl, by with_unfolding_all rfl,
    generateTour_metrics_c5 (constDist 1) "" (.error ()) 0 demoOrigin 100
      demoSightsNear demoWS demoState demoTour5
      (by with_unfolding_all rfl) (by with_unfolding_all rfl)⟩

/-! ## Witness for C9 -/

/-- C9 (witness): concrete store with one current tour. -/
theorem saveTour_loadTour_c9_witness :
    ({ demoState with currentTour := some demoTour } : TourState).currentTour =
      some demoTour ∧
    ("X" : String) ≠ "" ∧
    (∃ t, (loadTour demoTour.id
        (saveTour "X" { demoState with currentTour := some demoTour })).currentTour =
        some t ∧ t.name = "X" ∧ t.sights = demoTour.sights) :=
  ⟨rfl, by decide,
    saveTour_loadTour_c9 { demoState with currentTour := some demoTour } demoTour "X"
      rfl (by decide)⟩

/-! ## Membership lemmas for the optimizers -/

theorem foldl_choice_mem {α : Type} (f : α → α → α)
    (hf : ∀ a x, f a x = a ∨ f a x = x) :
    ∀ (l : List α) (a : α), l.foldl f a ∈ a :: l := by
  intro l
  induction l with
  | nil => intro a; simp
  | cons x t ih =>
    intro a
    have hmem := ih (f a x)
    rw [List.foldl_cons]
    rcases List.mem_cons.1 hmem with h | h
    · rcases hf a x with h2 | h2
      · exact List.mem_cons.2 (Or.inl (h.trans h2))
      · exact List.mem_cons.2 (Or.inr (List.mem_cons.2 (Or.inl (h.trans h2))))
    · exact List.mem_cons.2 (Or.inr (List.mem_cons.2 (Or.inr h)))

theorem reduceNearest_mem (dist : DistFn) (cur : Coord) :
    ∀ (l : List Sight) (s : Sight), reduceNearest dist cur l = some s → s ∈ l := by
  intro l s h
  cases l with
  | nil => simp [reduceNearest] at h
  | cons a t =>
    simp only [reduceNearest, Option.some.injEq] at h
    subst h
    exact foldl_choice_mem _ (by
      intro c x
      by_cases hc : dist cur.latitude cur.longitude x.latitude x.longitude <
          dist cur.latitude cur.longitude c.latitude c.longitude <;> simp [hc]) t a

theorem reduceNearest_of_ne_nil (dist : DistFn) (cur : Coord) (l : List Sight)
    (h : l ≠ []) : ∃ s, reduceNearest dist cur l = some s := by
  cases l with
  | nil => exact absurd rfl h
  | cons a t => exact ⟨_, rfl⟩

theorem optimizeTourSimpleAux_append (dist : DistFn) (loc : Coord) (sights : List Sight)
    (maxD : ℚ) :
    ∀ (fuel : ℕ) (visited : List String) (route : List Sight) (cur : Coord) (acc : ℚ),
      ∃ added,
        optimizeTourSimpleAux dist loc sights maxD fuel visited route cur acc =
          route ++ added ∧
        ∀ s ∈ added, s ∈ sights := by
  intro fuel
  induction fuel with
  | zero =>
    intro visited route cur acc
    exact ⟨[], by simp [optimizeTourSimpleAux]⟩
  | succ fuel ih =>
    intro visited route cur acc
    by_cases hcond : visited.length < sights.length ∧ visited.length < 8
    · simp only [optimizeTourSimpleAux]
      rw [if_pos hcond]
      cases hnear : reduceNearest dist cur
          (sights.filter (fun sight => !visited.contains sight.id)) with
      | none => exact ⟨[], by simp, by simp⟩
      | some nextSight =>
        dsimp only
        by_cases hbudget : maxD * (9/10) <
            acc + dist cur.latitude cur.longitude nextSight.latitude nextSight.longitude +
            dist nextSight.latitude nextSight.longitude loc.latitude loc.longitude * (1/2)
        · refine ⟨[], ?_, by simp⟩
          rw [if_pos hbudget, List.append_nil]
        · rw [if_neg hbudget]
          obtain ⟨added, heq, hsub⟩ := ih (visited ++ [nextSight.id]) (route ++ [nextSight])
            ⟨nextSight.latitude, nextSight.longitude⟩
            (acc + dist cur.latitude cur.longitude nextSight.latitude nextSight.longitude)
          refine ⟨nextSight :: added, by simpa using heq, ?_⟩
          intro s hs
          rcases List.mem_cons.1 hs with h | h
          · subst h
            exact (List.mem_filter.1 (reduceNearest_mem dist cur _ _ hnear)).1
          · exact hsub s h
    · refine ⟨[], ?_, by simp⟩
      simp only [optimizeTourSimpleAux]
      rw [if_neg hcond, List.append_nil]

theorem optimizeTourSimple_subset (dist : DistFn) (loc : Coord) (sights : List Sight)
    (maxD : ℚ) : ∀ s ∈ optimizeTourSimple dist loc sights maxD, s ∈ sights := by
  unfold optimizeTourSimple
  by_cases hlen : sights.length ≤ 1
  · simp [hlen]
  · simp only [hlen, if_false]
    have hne : sights ≠ [] := by
      intro h0
      rw [h0] at hlen
      simp at hlen
    obtain ⟨closestSight, hred⟩ := reduceNearest_of_ne_nil dist loc sights hne
    obtain ⟨added, heq, hsub⟩ := optimizeTourSimpleAux_append dist loc sights maxD
      sights.length [closestSight.id] [closestSight]
      ⟨closestSight.latitude, closestSight.longitude⟩ 0
    simp only [hred, heq]
    intro s hs
    rcases List.mem_append.1 hs with h | h
    · rw [List.mem_singleton.1 h]
      exact reduceNearest_mem dist loc sights closestSight hred
    · exact hsub s h

theorem optimizeTourSimple_ne_nil (dist : DistFn) (loc : Coord) (sights : List Sight)
    (maxD : ℚ) (h : sights ≠ []) : optimizeTourSimple dist loc sights maxD ≠ [] := by
  unfold optimizeTourSimple
  by_cases hlen : sights.length ≤ 1
  · simpa [hlen]
  · simp only [hlen, if_false]
    obtain ⟨closestSight, hred⟩ := reduceNearest_of_ne_nil dist loc sights h
    obtain ⟨added, heq, _⟩ := optimizeTourSimpleAux_append dist loc sights maxD
      sights.length [closestSight.id] [closestSight]
      ⟨closestSight.latitude, closestSight.longitude⟩ 0
    simp only [hred, heq]
    simp

theorem matchAISights_subset (sights : List Sight) (names : List String) :
    ∀ s ∈ matchAISights sights names, s ∈ sights := by
  unfold matchAISights
  suffices h : ∀ (ns : List String) (acc : List Sight), (∀ s ∈ acc, s ∈ sights) →
      ∀ s ∈ ns.foldl (fun optimizedRoute name =>
        match sights.find? (fun s =>
            containsLower s.name name || containsLower name s.name) with
        | some sight =>
          if (optimizedRoute.find? (fun r => r.id == sight.id)).isSome then optimizedRoute
          else optimizedRoute ++ [sight]
        | none => optimizedRoute) acc, s ∈ sights by
    exact h names [] (by simp)
  intro ns
  induction ns with
  | nil => intro acc hacc; simpa using hacc
  | cons n t ih =>
    intro acc hacc
    simp only [List.foldl_cons]
    cases hfind : sights.find? (fun s =>
        containsLower s.name n || containsLower n s.name) with
    | none => exact ih acc hacc
    | some sight =>
      by_cases hdup : (acc.find? (fun r => r.id == sight.id)).isSome
      · simp only [hdup, if_true]
        exact ih acc hacc
      · simp only [hdup, if_false]
        refine ih (acc ++ [sight]) ?_
        intro s hs
        rcases List.mem_append.1 hs with h | h
        · exact hacc s h
        · rw [List.mem_singleton.1 h]
          exact List.mem_of_find?_eq_some hfind

theorem sortByDistance_mem (l : List Sight) (s : Sight) :
    s ∈ sortByDistance l ↔ s ∈ l := by
  unfold sortByDistance
  exact List.mem_insertionSort _

theorem optimizeTourWithAI_subset (dist : DistFn) (loc : Coord) (sights : List Sight)
    (maxD : ℚ) (fetch : FetchResult) :
    ∀ s ∈ optimizeTourWithAI dist loc sights maxD fetch, s ∈ sights := by
  unfold optimizeTourWithAI
  cases fetch with
  | error e => exact optimizeTourSimple_subset dist loc sights maxD
  | ok response =>
    by_cases hok : response.ok
    · simp only [hok, Bool.not_true, Bool.false_eq_true, if_false]
      intro s hs
      set matched := matchAISights sights
        ((response.completion.splitOn ",").map (fun name => name.trim)) with hmdef
      have hmsub : ∀ x ∈ matched, x ∈ sights := matchAISights_subset _ _
      by_cases hfew : matched.length < 3
      · simp only [← hmdef, hfew, if_true] at hs
        set combined := matched ++ (sortByDistance (sights.filter
            (fun sight => !((matched.find? (fun r => r.id == sight.id)).isSome)))).take
            (min 5 (sortByDistance (sights.filter
              (fun sight => !((matched.find? (fun r => r.id == sight.id)).isSome)))).length)
          with hcdef
        have hcsub : ∀ x ∈ combined, x ∈ sights := by
          intro x hx
          rcases List.mem_append.1 hx with h | h
          · exact hmsub x h
          · have := List.mem_of_mem_take h
            exact (List.mem_filter.1 ((sortByDistance_mem _ _).1 this)).1
        by_cases hpos : 0 < combined.length
        · simp only [hpos, if_true] at hs
          exact hcsub s hs
        · simp only [hpos, if_false] at hs
          exact optimizeTourSimple_subset dist loc sights maxD s hs
      · simp only [← hmdef, hfew, if_false] at hs
        by_cases hpos : 0 < matched.length
        · simp only [hpos, if_true] at hs
          exact hmsub s hs
        · simp only [hpos, if_false] at hs
          exact optimizeTourSimple_subset dist loc sights maxD s hs
    · simp only [hok]
      intro s hs
      simp only [Bool.not_false, if_true] at hs
      exact optimizeTourSimple_subset dist loc sights maxD s hs

theorem ite_pos_length_ne_nil {l fallback : List Sight}
    (hf : fallback ≠ []) : (if 0 < l.length then l else fallback) ≠ [] := by
  by_cases hpos : 0 < l.length
  · simp only [hpos, if_true]
    intro h0
    rw [h0] at hpos
    simp at hpos
  · simp only [hpos, if_false]
    exact hf

theorem optimizeTourWithAI_ne_nil (dist : DistFn) (loc : Coord) (sights : List Sight)
    (maxD : ℚ) (fetch : FetchResult) (h : sights ≠ []) :
    optimizeTourWithAI dist loc sights maxD fetch ≠ [] := by
  unfold optimizeTourWithAI
  cases fetch with
  | error e => exact optimizeTourSimple_ne_nil dist loc sights maxD h
  | ok response =>
    by_cases hok : response.ok
    · simp only [hok, Bool.not_true, Bool.false_eq_true, if_false]
      exact ite_pos_length_ne_nil (optimizeTourSimple_ne_nil dist loc sights maxD h)
    · simp only [hok, Bool.not_false, if_true]
      exact optimizeTourSimple_ne_nil dist loc sights maxD h

theorem routeOf_subset (dist : DistFn) (key : String) (fetch : FetchResult) (loc : Coord)
    (maxD : ℚ) (nearSights : List Sight) :
    ∀ s ∈ routeOf dist key fetch loc maxD nearSights, s ∈ nearSights := by
  unfold routeOf
  by_cases hcond : key ≠ "" ∧ 3 < nearSights.length
  · rw [if_pos hcond]
    exact optimizeTourWithAI_subset dist loc nearSights maxD fetch
  · rw [if_neg hcond]
    exact optimizeTourSimple_subset dist loc nearSights maxD

theorem routeOf_ne_nil (dist : DistFn) (key : String) (fetch : FetchResult) (loc : Coord)
    (maxD : ℚ) (nearSights : List Sight) (h : nearSights ≠ []) :
    routeOf dist key fetch loc maxD nearSights ≠ [] := by
  unfold routeOf
  by_cases hcond : key ≠ "" ∧ 3 < nearSights.length
  · rw [if_pos hcond]
    exact optimizeTourWithAI_ne_nil dist loc nearSights maxD fetch h
  · rw [if_neg hcond]
    exact optimizeTourSimple_ne_nil dist loc nearSights maxD h

/-! ## Candidate-selection lemmas -/

theorem mem_nearSightsOf_distance (maxD : ℚ) (fs : List Sight) :
    ∀ s ∈ nearSightsOf maxD fs, s.distance ≠ none := by
  intro s hs hd
  have hp := (List.mem_filter.1 hs).2
  rw [hd] at hp
  simp at hp

theorem mem_expandedSightsOf_distance (maxD : ℚ) (fs : List Sight) :
    ∀ s ∈ expandedSightsOf maxD fs, s.distance ≠ none := by
  intro s hs hd
  have hp := (List.mem_filter.1 hs).2
  rw [hd] at hp
  simp at hp

theorem candidatesResult_ok_distance (maxD : ℚ) (fs : List Sight) (ns : List Sight)
    (h : candidatesResult maxD fs = .ok ns) : ∀ s ∈ ns, s.distance ≠ none := by
  unfold candidatesResult at h
  by_cases h0 : (nearSightsOf maxD fs).length = 0
  · rw [if_pos h0] at h
    by_cases h1 : (expandedSightsOf maxD fs).length = 0
    · rw [if_pos h1] at h
      exact absurd h (by simp)
    · rw [if_neg h1] at h
      have heq := Except.ok.inj h
      intro s hs
      rw [← heq] at hs
      rcases List.mem_append.1 hs with hmem | hmem
      · exact mem_nearSightsOf_distance maxD fs s hmem
      · exact mem_expandedSightsOf_distance maxD fs s
          ((sortByDistance_mem _ _).1 (List.mem_of_mem_take hmem))
  · rw [if_neg h0] at h
    have heq := Except.ok.inj h
    intro s hs
    rw [← heq] at hs
    exact mem_nearSightsOf_distance maxD fs s hs

/-! ## Claim C10: candidates without a distance value -/

/-- C10: a candidate whose distance-from-user is absent is filtered out
before optimization and never appears among a published tour's stops; and
when every tier-filtered candidate lacks a distance value, `generateTour`
fails with the no-matching-candidates error. -/
theorem generateTour_missing_distance_c10 (dist : DistFn) (key : String)
    (fetch : FetchResult) (now : ℕ) (loc : Coord) (maxD : ℚ) (avail : List Sight)
    (ws : Option TourWizardSettings) (state : TourState) :
    (∀ tour, (generateTour dist key fetch now loc maxD avail ws state).2 = .ok () →
      (generateTour dist key fetch now loc maxD avail ws state).1.currentTour =
        some tour →
      ∀ stop ∈ tour.sights, stop.distance ≠ none) ∧
    ((∀ s ∈ filteredSightsOf ws avail, s.distance = none) →
      (generateTour dist key fetch now loc maxD avail ws state).2 =
        .error .noSightsFound) := by
  constructor
  · intro tour hok htour stop hstop
    obtain ⟨ns, hc, hrne, htoureq⟩ :=
      generateTour_tour_inv dist key fetch now loc maxD avail ws state tour hok htour
    have hmem : stop.toSight ∈ routeOf dist key fetch loc maxD ns := by
      have : stop.toSight ∈ tour.sights.map TourStop.toSight :=
        List.mem_map_of_mem _ hstop
      rwa [htoureq, buildTour_sights, assembleTourStops_map_toSight] at this
    exact candidatesResult_ok_distance maxD _ ns hc stop.toSight
      (routeOf_subset dist key fetch loc maxD ns stop.toSight hmem)
  · intro hall
    have hnear : nearSightsOf maxD (filteredSightsOf ws avail) = [] := by
      apply List.filter_eq_nil_iff.2
      intro s hs
      rw [hall s hs]
      simp
    have hexp : expandedSightsOf maxD (filteredSightsOf ws avail) = [] := by
      apply List.filter_eq_nil_iff.2
      intro s hs
      rw [hall s hs]
      simp
    have hcand : candidatesResult maxD (filteredSightsOf ws avail) =
        .error .noSightsFound := by
      unfold candidatesResult
      rw [hnear, hexp]
      simp
    unfold generateTour generateTourBody
    rw [hcand]

/-- C10 (witness): the three-candidate run has only distance-carrying
stops; the run whose candidates all lack a distance fails with the
no-sights error. -/
theorem generateTour_missing_distance_c10_witness :
    demoRun5.2 = .ok () ∧
    (∀ stop ∈ demoTour5.sights, stop.distance ≠ none) ∧
    (generateTour (constDist 1) "" (.error ()) 0 demoOrigin 100 demoSightsNoDist none
      demoState).2 = .error .noSightsFound :=
  ⟨by with_unfolding_all rfl,
   (generateTour_missing_distance_c10 (constDist 1) "" (.error ()) 0 demoOrigin 100
      demoSightsNear (some demoWS) demoState).1 demoTour5
      (by with_unfolding_all rfl) (by with_unfolding_all rfl),
   (generateTour_missing_distance_c10 (constDist 1) "" (.error ()) 0 demoOrigin 100
      demoSightsNoDist none demoState).2
      (by with_unfolding_all decide)⟩

/-! ## Claim C4: delegation failure degrades to the heuristic -/

/-- C4: with a credential configured and more than 3 candidates after the
filters, a delegated-optimizer call that throws or returns a non-success
response makes `generateTour` succeed anyway, and the published stop
sequence is exactly what the heuristic `optimizeTourSimple` alone
produces on the same candidates. -/
theorem generateTour_ai_fallback_c4 (dist : DistFn) (key : String)
    (fetch : FetchResult) (now : ℕ) (loc : Coord) (maxD : ℚ) (avail : List Sight)
    (ws : Option TourWizardSettings) (state : TourState)
    (hkey : key ≠ "")
    (hn : 3 < (nearSightsOf maxD (filteredSightsOf ws avail)).length)
    (hfail : aiFailed fetch = true) :
    (generateTour dist key fetch now loc maxD avail ws state).2 = .ok () ∧
    ∀ tour, (generateTour dist key fetch now loc maxD avail ws state).1.currentTour =
        some tour →
      tour.sights.map TourStop.toSight =
        optimizeTourSimple dist loc (nearSightsOf maxD (filteredSightsOf ws avail)) maxD := by
  have hlen0 : ¬((nearSightsOf maxD (filteredSightsOf ws avail)).length = 0) := by omega
  have hcand : candidatesResult maxD (filteredSightsOf ws avail) =
      .ok (nearSightsOf maxD (filteredSightsOf ws avail)) := by
    unfold candidatesResult
    rw [if_neg hlen0]
  have hroute : routeOf dist key fetch loc maxD
      (nearSightsOf maxD (filteredSightsOf ws avail)) =
      optimizeTourSimple dist loc (nearSightsOf maxD (filteredSightsOf ws avail)) maxD := by
    unfold routeOf
    rw [if_pos ⟨hkey, hn⟩]
    unfold optimizeTourWithAI
    cases fetch with
    | error e => rfl
    | ok response =>
      have hbad : response.ok = false := by
        simpa [aiFailed] using hfail
      dsimp only
      rw [hbad]
      rfl
  have hne : routeOf dist key fetch loc maxD
      (nearSightsOf maxD (filteredSightsOf ws avail)) ≠ [] := by
    rw [hroute]
    apply optimizeTourSimple_ne_nil
    intro h0
    rw [h0] at hn
    simp at hn
  constructor
  · unfold generateTour generateTourBody
    rw [hcand]
    simp [hne]
  · intro tour htour
    have hok : (generateTour dist key fetch now loc maxD avail ws state).2 = .ok () := by
      unfold generateTour generateTourBody
      rw [hcand]
      simp [hne]
    obtain ⟨ns, hc, hrne, htoureq⟩ :=
      generateTour_tour_inv dist key fetch now loc maxD avail ws state tour hok htour
    rw [hcand] at hc
    have hns := Except.ok.inj hc
    rw [htoureq, buildTour_sights, assembleTourStops_map_toSight, ← hns, hroute]

/-- C4 (witness): the concrete four-candidate run with credential "k" and
a throwing external call. -/
theorem generateTour_ai_fallback_c4_witness :
    demoRun4.2 = .ok () ∧
    demoRun4.1.currentTour = some demoTour4 ∧
    demoTour4.sights.map TourStop.toSight =
      optimizeTourSimple (constDist 1) demoOrigin
        (nearSightsOf 100 (filteredSightsOf (some demoWS) demoSightsFour)) 100 :=
  ⟨(generateTour_ai_fallback_c4 (constDist 1) "k" (.error ()) 0 demoOrigin 100
      demoSightsFour (some demoWS) demoState (by decide)
      (by with_unfolding_all decide) rfl).1,
   by with_unfolding_all rfl,
   (generateTour_ai_fallback_c4 (constDist 1) "k" (.error ()) 0 demoOrigin 100
      demoSightsFour (some demoWS) demoState (by decide)
      (by with_unfolding_all decide) rfl).2 demoTour4 (by with_unfolding_all rfl)⟩

/-! ## Claim C3: the 1.5× expansion does not bypass the optimizer -/

/-- C3 (counterexample): with budget 10 and two candidates at distance 12
(inside 1.5 × 10), the claim demands the tour take both expanded-radius
candidates directly; the code instead runs the heuristic optimizer over
them, which drops the second stop (pairwise geometric distance 20 violates
the budget rule), publishing a one-stop tour. -/
theorem generateTour_expansion_c3_cex :
    demoRun3.2 = .ok () ∧
    demoRun3.1.currentTour = some demoTour3 ∧
    ((sortByDistance (expandedSightsOf 10 (filteredSightsOf none demoSightsFar))).take
      (min 8 (sortByDistance
        (expandedSightsOf 10 (filteredSightsOf none demoSightsFar))).length)).map
          (fun s => s.name) = ["Alpha", "Beta"] ∧
    demoTour3.sights.map (fun s => s.name) = ["Alpha"] :=
  ⟨by with_unfolding_all rfl, by with_unfolding_all rfl,
   by with_unfolding_all rfl, by with_unfolding_all rfl⟩

/-- C3 (amended): when the primary radius pass finds nothing and the 1.5×
retry finds candidates, the published stop sequence is the result of
running the configured optimizer (`routeOf`: delegated when eligible, else
the heuristic) on the closest up to 8 expanded-radius candidates — the
optimizer is not bypassed. -/
theorem generateTour_expansion_c3 (dist : DistFn) (key : String)
    (fetch : FetchResult) (now : ℕ) (loc : Coord) (maxD : ℚ) (avail : List Sight)
    (ws : Option TourWizardSettings) (state : TourState)
    (hnear : nearSightsOf maxD (filteredSightsOf ws avail) = [])
    (hexp : expandedSightsOf maxD (filteredSightsOf ws avail) ≠ []) :
    (generateTour dist key fetch now loc maxD avail ws state).2 = .ok () ∧
    ∀ tour, (generateTour dist key fetch now loc maxD avail ws state).1.currentTour =
        some tour →
      tour.sights.map TourStop.toSight =
        routeOf dist key fetch loc maxD
          ((sortByDistance (expandedSightsOf maxD (filteredSightsOf ws avail))).take
            (min 8 (sortByDistance
              (expandedSightsOf maxD (filteredSightsOf ws avail))).length)) := by
  have hel : ¬((expandedSightsOf maxD (filteredSightsOf ws avail)).length = 0) := by
    simpa [List.length_eq_zero] using hexp
  have hsortlen : (sortByDistance (expandedSightsOf maxD
      (filteredSightsOf ws avail))).length =
      (expandedSightsOf maxD (filteredSightsOf ws avail)).length :=
    (List.perm_insertionSort _ _).length_eq
  have hcand : candidatesResult maxD (filteredSightsOf ws avail) =
      .ok ((sortByDistance (expandedSightsOf maxD (filteredSightsOf ws avail))).take
        (min 8 (sortByDistance
          (expandedSightsOf maxD (filteredSightsOf ws avail))).length)) := by
    unfold candidatesResult
    rw [hnear]
    simp only [List.length_nil, if_true, List.nil_append]
    rw [if_neg hel]
  have htake_ne : (sortByDistance (expandedSightsOf maxD
      (filteredSightsOf ws avail))).take
      (min 8 (sortByDistance (expandedSightsOf maxD
        (filteredSightsOf ws avail))).length) ≠ [] := by
    rw [Ne, List.take_eq_nil_iff]
    push_neg
    constructor
    · omega
    · intro h0
      rw [h0] at hsortlen
      simp at hsortlen
      omega
  have hne := routeOf_ne_nil dist key fetch loc maxD _ htake_ne
  constructor
  · unfold generateTour generateTourBody
    rw [hcand]
    simp [hne]
  · intro tour htour
    have hok : (generateTour dist key fetch now loc maxD avail ws state).2 = .ok () := by
      unfold generateTour generateTourBody
      rw [hcand]
      simp [hne]
    obtain ⟨ns, hc, hrne, htoureq⟩ :=
      generateTour_tour_inv dist key fetch now loc maxD avail ws state tour hok htour
    rw [hcand] at hc
    have hns := Except.ok.inj hc
    rw [htoureq, buildTour_sights, assembleTourStops_map_toSight, ← hns]

/-- C3 (witness for the amended claim): the concrete far-candidates run. -/
theorem generateTour_expansion_c3_witness :
    demoRun3.2 = .ok () ∧
    demoRun3.1.currentTour = some demoTour3 ∧
    demoTour3.sights.map TourStop.toSight =
      routeOf (constDist 20) "" (.error ()) demoOrigin 10
        ((sortByDistance (expandedSightsOf 10 (filteredSightsOf none demoSightsFar))).take
          (min 8 (sortByDistance
            (expandedSightsOf 10 (filteredSightsOf none demoSightsFar))).length)) :=
  ⟨by with_unfolding_all rfl, by with_unfolding_all rfl,
   (generateTour_expansion_c3 (constDist 20) "" (.error ()) 0 demoOrigin 10
      demoSightsFar none demoState (by with_unfolding_all rfl)
      (by with_unfolding_all decide)).2 demoTour3 (by with_unfolding_all rfl)⟩

/-! ## Claim C1: the heuristic optimizer obeys cap, budget rule and
stopping rule -/

theorem lastCoord_append (s : Sight) :
    ∀ (l : List Sight) (c : Coord),
      lastCoord (l ++ [s]) c = ⟨s.latitude, s.longitude⟩ := by
  intro l
  induction l with
  | nil => intro c; rfl
  | cons a t ih => intro c; exact ih ⟨a.latitude, a.longitude⟩

theorem routeAccumFrom_append (dist : DistFn) (s : Sight) :
    ∀ (l : List Sight) (cur : Coord),
      routeAccumFrom dist cur (l ++ [s]) =
        routeAccumFrom dist cur l +
          dist (lastCoord l cur).latitude (lastCoord l cur).longitude
            s.latitude s.longitude := by
  intro l
  induction l with
  | nil => intro cur; simp [routeAccumFrom, lastCoord]
  | cons a t ih =>
    intro cur
    simp only [List.cons_append, routeAccumFrom, lastCoord, List.append_eq]
    rw [ih ⟨a.latitude, a.longitude⟩]
    ring

theorem all_ids_covered {route sights : List Sight}
    (hnd : (route.map Sight.id).Nodup) (hsub : ∀ s ∈ route, s ∈ sights)
    (hlen : sights.length ≤ route.length) :
    sights.all (fun s => (route.map Sight.id).contains s.id) = true := by
  have hsubm : route.map Sight.id ⊆ sights.map Sight.id := by
    intro x hx
    rcases List.mem_map.1 hx with ⟨s, hs, rfl⟩
    exact List.mem_map_of_mem _ (hsub s hs)
  have hsp : List.Subperm (route.map Sight.id) (sights.map Sight.id) :=
    List.subperm_of_subset hnd hsubm
  have hperm : List.Perm (route.map Sight.id) (sights.map Sight.id) :=
    hsp.perm_of_length_le (by simpa using hlen)
  rw [List.all_eq_true]
  intro s hs
  have hm : s.id ∈ route.map Sight.id :=
    hperm.mem_iff.2 (List.mem_map_of_mem _ hs)
  simpa [List.contains, List.elem_iff] using hm

theorem reduceNearest_eq_none (dist : DistFn) (cur : Coord) (l : List Sight) :
    reduceNearest dist cur l = none ↔ l = [] := by
  cases l with
  | nil => simp [reduceNearest]
  | cons a t => simp [reduceNearest]

theorem stoppedValidly_cons (dist : DistFn) (origin : Coord) (sights : List Sight)
    (maxDistance : ℚ) (first : Sight) (rest : List Sight) :
    stoppedValidly dist origin sights maxDistance (first :: rest) =
      (sights.all (fun s => ((first :: rest).map Sight.id).contains s.id) ||
       (first :: rest).length == 8 ||
       (match reduceNearest dist (lastCoord rest ⟨first.latitude, first.longitude⟩)
          (sights.filter
            (fun s => !(((first :: rest).map Sight.id).contains s.id))) with
        | none => false
        | some nextSight =>
          decide (maxDistance * (9/10) <
            routeAccumFrom dist ⟨first.latitude, first.longitude⟩ rest +
            dist (lastCoord rest ⟨first.latitude, first.longitude⟩).latitude
              (lastCoord rest ⟨first.latitude, first.longitude⟩).longitude
              nextSight.latitude nextSight.longitude +
            dist nextSight.latitude nextSight.longitude
              origin.latitude origin.longitude * (1/2)))) := rfl

theorem optimizeTourSimpleAux_spec (dist : DistFn) (origin : Coord) (sights : List Sight)
    (maxDistance : ℚ) :
    ∀ (fuel : ℕ) (first : Sight) (rest : List Sight),
      (first :: rest).length ≤ 8 →
      ((first :: rest).map Sight.id).Nodup →
      (∀ s ∈ first :: rest, s ∈ sights) →
      sights.length ≤ fuel + (first :: rest).length →
      ∃ added,
        optimizeTourSimpleAux dist origin sights maxDistance fuel
            ((first :: rest).map Sight.id) (first :: rest)
            (lastCoord rest ⟨first.latitude, first.longitude⟩)
            (routeAccumFrom dist ⟨first.latitude, first.longitude⟩ rest)
          = (first :: rest) ++ added ∧
        budgetRuleFrom dist origin maxDistance
            (lastCoord rest ⟨first.latitude, first.longitude⟩)
            (routeAccumFrom dist ⟨first.latitude, first.longitude⟩ rest) added = true ∧
        ((first :: rest) ++ added).length ≤ 8 ∧
        stoppedValidly dist origin sights maxDistance ((first :: rest) ++ added) = true := by
  intro fuel
  induction fuel with
  | zero =>
    intro first rest h8 hnd hsub hfuel
    refine ⟨[], by simp [optimizeTourSimpleAux], rfl, by simpa using h8, ?_⟩
    have hall := all_ids_covered hnd hsub (by simpa using hfuel)
    rw [List.append_nil, stoppedValidly_cons, hall]
    simp
  | succ fuel ih =>
    intro first rest h8 hnd hsub hfuel
    by_cases hcond : ((first :: rest).map Sight.id).length < sights.length ∧
        ((first :: rest).map Sight.id).length < 8
    · simp only [optimizeTourSimpleAux]
      rw [if_pos hcond]
      cases hnear : reduceNearest dist (lastCoord rest ⟨first.latitude, first.longitude⟩)
          (sights.filter
            (fun sight => !((first :: rest).map Sight.id).contains sight.id)) with
      | none =>
        refine ⟨[], by simp, rfl, by simpa using h8, ?_⟩
        have hfil := (reduceNearest_eq_none _ _ _).1 hnear
        have hall : sights.all
            (fun s => ((first :: rest).map Sight.id).contains s.id) = true := by
          rw [List.all_eq_true]
          intro s hs
          have hp := List.filter_eq_nil_iff.1 hfil s hs
          cases hc : (((first :: rest).map Sight.id).contains s.id) with
          | true => rfl
          | false => exact absurd (by rw [hc]; rfl) hp
        rw [List.append_nil, stoppedValidly_cons, hall]
        simp
      | some nextSight =>
        dsimp only
        by_cases hbudget : maxDistance * (9/10) <
            routeAccumFrom dist ⟨first.latitude, first.longitude⟩ rest +
            dist (lastCoord rest ⟨first.latitude, first.longitude⟩).latitude
              (lastCoord rest ⟨first.latitude, first.longitude⟩).longitude
              nextSight.latitude nextSight.longitude +
            dist nextSight.latitude nextSight.longitude
              origin.latitude origin.longitude * (1/2)
        · refine ⟨[], ?_, rfl, by simpa using h8, ?_⟩
          · rw [if_pos hbudget, List.append_nil]
          · rw [List.append_nil, stoppedValidly_cons, hnear]
            dsimp only
            rw [decide_eq_true hbudget]
            simp
        · rw [if_neg hbudget]
          have hmemnext : nextSight ∈ sights.filter
              (fun sight => !((first :: rest).map Sight.id).contains sight.id) :=
            reduceNearest_mem _ _ _ _ hnear
          have hnextin : nextSight ∈ sights := (List.mem_filter.1 hmemnext).1
          have hnextnew : ¬ nextSight.id ∈ (first :: rest).map Sight.id := by
            have hb := (List.mem_filter.1 hmemnext).2
            simpa [List.contains, List.elem_iff] using hb
          have inv1 : (first :: (rest ++ [nextSight])).length ≤ 8 := by
            have hc := hcond.2
            simp only [List.length_map, List.length_cons] at hc
            simp only [List.length_cons, List.length_append, List.length_nil, List.length_map]
            omega
          have inv2 : ((first :: (rest ++ [nextSight])).map Sight.id).Nodup := by
            have heqm : (first :: (rest ++ [nextSight])).map Sight.id =
                (first :: rest).map Sight.id ++ [nextSight.id] := by
              simp
            rw [heqm, List.nodup_append]
            refine ⟨hnd, List.nodup_singleton _, ?_⟩
            intro x hx
            simp only [List.mem_singleton]
            intro hxid
            subst hxid
            exact hnextnew hx
          have inv3 : ∀ s ∈ first :: (rest ++ [nextSight]), s ∈ sights := by
            intro s hs
            rcases List.mem_cons.1 hs with h | h
            · exact hsub s (h ▸ List.mem_cons_self _ _)
            · rcases List.mem_append.1 h with h2 | h2
              · exact hsub s (List.mem_cons.2 (Or.inr h2))
              · rw [List.mem_singleton.1 h2]
                exact hnextin
          have inv4 : sights.length ≤ fuel + (first :: (rest ++ [nextSight])).length := by
            simp only [List.length_cons, List.length_append, List.length_nil, List.length_map]
            simp only [List.length_cons] at hfuel
            omega
          obtain ⟨added, heq, hrule, hlen8, hstop⟩ :=
            ih first (rest ++ [nextSight]) inv1 inv2 inv3 inv4
          have e1 : (first :: (rest ++ [nextSight])).map Sight.id =
              (first :: rest).map Sight.id ++ [nextSight.id] := by simp
          have e2 : (first :: (rest ++ [nextSight])) = (first :: rest) ++ [nextSight] := by
            simp
          have e3 : lastCoord (rest ++ [nextSight]) ⟨first.latitude, first.longitude⟩ =
              ⟨nextSight.latitude, nextSight.longitude⟩ :=
            lastCoord_append nextSight rest _
          have e4 : routeAccumFrom dist ⟨first.latitude, first.longitude⟩
              (rest ++ [nextSight]) =
              routeAccumFrom dist ⟨first.latitude, first.longitude⟩ rest +
              dist (lastCoord rest ⟨first.latitude, first.longitude⟩).latitude
                (lastCoord rest ⟨first.latitude, first.longitude⟩).longitude
                nextSight.latitude nextSight.longitude :=
            routeAccumFrom_append dist nextSight rest _
          rw [e1, e2, e3, e4] at heq
          rw [e3, e4] at hrule
          rw [e2] at hlen8 hstop
          refine ⟨nextSight :: added, ?_, ?_, ?_, ?_⟩
          · rw [heq]
            simp
          · show (decide (routeAccumFrom dist ⟨first.latitude, first.longitude⟩ rest +
                dist (lastCoord rest ⟨first.latitude, first.longitude⟩).latitude
                  (lastCoord rest ⟨first.latitude, first.longitude⟩).longitude
                  nextSight.latitude nextSight.longitude +
                dist nextSight.latitude nextSight.longitude
                  origin.latitude origin.longitude * (1/2)
              ≤ maxDistance * (9/10)) &&
              budgetRuleFrom dist origin maxDistance
                ⟨nextSight.latitude, nextSight.longitude⟩
                (routeAccumFrom dist ⟨first.latitude, first.longitude⟩ rest +
                  dist (lastCoord rest ⟨first.latitude, first.longitude⟩).latitude
                    (lastCoord rest ⟨first.latitude, first.longitude⟩).longitude
                    nextSight.latitude nextSight.longitude) added) = true
            rw [Bool.and_eq_true]
            exact ⟨decide_eq_true (not_lt.1 hbudget), hrule⟩
          · rw [show (first :: rest) ++ nextSight :: added =
                ((first :: rest) ++ [nextSight]) ++ added by simp]
            exact hlen8
          · rw [show (first :: rest) ++ nextSight :: added =
                ((first :: rest) ++ [nextSight]) ++ added by simp]
            exact hstop
    · refine ⟨[], ?_, rfl, by simpa using h8, ?_⟩
      · simp only [optimizeTourSimpleAux]
        rw [if_neg hcond, List.append_nil]
      · rw [List.append_nil]
        by_cases hc1 : ((first :: rest).map Sight.id).length < sights.length
        · have hc2 : ¬(((first :: rest).map Sight.id).length < 8) :=
            fun h => hcond ⟨hc1, h⟩
          have h88 : (first :: rest).length = 8 := by
            simp only [List.length_map, List.length_cons] at hc2
            simp only [List.length_cons] at h8 ⊢
            omega
          rw [stoppedValidly_cons]
          simp [h88]
        · have hall := all_ids_covered hnd hsub (by
            simp only [List.length_map, List.length_cons] at hc1
            simp only [List.length_cons]
            omega)
          rw [stoppedValidly_cons, hall]
          simp

/-- C1: for every non-empty candidate list, origin and budget, the
heuristic optimizer returns at most 8 stops; every stop after the first
was admitted only while accumulated distance plus distance-to-stop plus
0.5 × the stop-to-origin distance stayed within 0.9 × budget
(`budgetRuleOk`); and the loop stopped exactly because all candidates
were visited, 8 stops were accumulated, or the nearest remaining
candidate would violate that inequality and was left out
(`stoppedValidly`). -/
theorem optimizeTourSimple_c1 (dist : DistFn) (origin : Coord) (sights : List Sight)
    (maxDistance : ℚ) (hne : sights ≠ []) :
    (optimizeTourSimple dist origin sights maxDistance).length ≤ 8 ∧
    budgetRuleOk dist origin maxDistance
      (optimizeTourSimple dist origin sights maxDistance) = true ∧
    stoppedValidly dist origin sights maxDistance
      (optimizeTourSimple dist origin sights maxDistance) = true := by
  unfold optimizeTourSimple
  by_cases hlen : sights.length ≤ 1
  · rw [if_pos hlen]
    cases sights with
    | nil => exact absurd rfl hne
    | cons a t =>
      cases t with
      | nil =>
        refine ⟨by simp, rfl, ?_⟩
        have hall : [a].all (fun s => (([a] : List Sight).map Sight.id).contains s.id) =
            true := by
          simp [List.contains, List.elem_iff]
        rw [stoppedValidly_cons, hall]
        simp
      | cons b t2 => simp at hlen
  · rw [if_neg hlen]
    obtain ⟨closest, hred⟩ := reduceNearest_of_ne_nil dist origin sights hne
    simp only [hred]
    have hclosest : closest ∈ sights := reduceNearest_mem _ _ _ _ hred
    obtain ⟨added, heq, hrule, hlen8, hstop⟩ :=
      optimizeTourSimpleAux_spec dist origin sights maxDistance sights.length closest []
        (by simp) (by simp) (by simpa using hclosest) (by simp)
    have heq2 : optimizeTourSimpleAux dist origin sights maxDistance sights.length
        [closest.id] [closest] ⟨closest.latitude, closest.longitude⟩ 0 =
        [closest] ++ added := heq
    rw [heq2]
    refine ⟨hlen8, ?_, hstop⟩
    show budgetRuleFrom dist origin maxDistance
      ⟨closest.latitude, closest.longitude⟩ 0 added = true
    exact hrule

/-- C1 (witness): three candidates, constant unit distance, budget 100. -/
theorem optimizeTourSimple_c1_witness :
    demoSightsNear ≠ [] ∧
    ((optimizeTourSimple (constDist 1) demoOrigin demoSightsNear 100).length ≤ 8 ∧
     budgetRuleOk (constDist 1) demoOrigin 100
       (optimizeTourSimple (constDist 1) demoOrigin demoSightsNear 100) = true ∧
     stoppedValidly (constDist 1) demoOrigin demoSightsNear 100
       (optimizeTourSimple (constDist 1) demoOrigin demoSightsNear 100) = true) :=
  ⟨by simp [demoSightsNear],
   optimizeTourSimple_c1 (constDist 1) demoOrigin demoSightsNear 100
     (by simp [demoSightsNear])⟩

end RorkTour
